import Mathlib

/-!
Verification development for the spend-pal Synchronization and Reconciliation
Engine (src/logic.py, with the data model of src/models/database.py).

Shallow embedding conventions:
* Monetary values are rationals (the source uses Python floats and SQL
  Numeric columns; exact arithmetic is the faithful model of the additions
  performed).
* Nullable database columns are Option-valued.
* The external provider (Plaid) is a parameter: a transaction store for
  the transactions_get endpoint and a cursor-indexed feed for the
  transactions_sync endpoint.
* Uncaught Python exceptions (TypeError, AttributeError) are modelled by
  Except.error; the state returned alongside is the state persisted by
  commits that ran before the exception was raised.
* Outbound text messages and reply texts are modelled as data carriers;
  their string rendering is presentation and is elided.
-/

/-- Calendar date, as produced by parsing the provider %Y-%m-%d strings. -/
structure Date where
  year : Nat
  month : Nat
  day : Nat
deriving DecidableEq, Repr

/-- Day number of a civil date (days since 1970-01-01, the standard
civil-from-days algorithm).  Python date comparison and timedelta
arithmetic coincide with integer arithmetic on this value. -/
def Date.dayNumber (d : Date) : Int :=
  let y : Int := if d.month ≤ 2 then (d.year : Int) - 1 else (d.year : Int)
  let era : Int := (if 0 ≤ y then y else y - 399) / 400
  let yoe : Int := y - era * 400
  let mp : Int := ((d.month : Int) + 9) % 12
  let doy : Int := (153 * mp + 2) / 5 + (d.day : Int) - 1
  let doe : Int := yoe * 365 + yoe / 4 - yoe / 100 + doy
  era * 146097 + doe - 719468

/-- tx_date.replace(day=1), the month key stored in users.current_month. -/
def Date.monthFloor (d : Date) : Date :=
  { d with day := 1 }

/-- The sixteen spending categories: the columns of the monthly_spending and
budgets tables (src/models/database.py). -/
inductive Cat where
  | income
  | transfer_in
  | transfer_out
  | loan_payments
  | bank_fees
  | entertainment
  | food_and_drink
  | general_merchandise
  | home_improvement
  | medical
  | personal_care
  | general_services
  | government_and_non_profit
  | transportation
  | travel
  | rent_and_utilities
deriving DecidableEq, Repr

/-- All categories, in column-declaration order. -/
def allCats : List Cat :=
  [.income, .transfer_in, .transfer_out, .loan_payments, .bank_fees,
   .entertainment, .food_and_drink, .general_merchandise, .home_improvement,
   .medical, .personal_care, .general_services, .government_and_non_profit,
   .transportation, .travel, .rent_and_utilities]

/-- getattr-style lookup of a category column by its field name; none models
the AttributeError raised when the name is not a column of the table. -/
def catOfField (s : String) : Option Cat :=
  if s = "income" then some .income
  else if s = "transfer_in" then some .transfer_in
  else if s = "transfer_out" then some .transfer_out
  else if s = "loan_payments" then some .loan_payments
  else if s = "bank_fees" then some .bank_fees
  else if s = "entertainment" then some .entertainment
  else if s = "food_and_drink" then some .food_and_drink
  else if s = "general_merchandise" then some .general_merchandise
  else if s = "home_improvement" then some .home_improvement
  else if s = "medical" then some .medical
  else if s = "personal_care" then some .personal_care
  else if s = "general_services" then some .general_services
  else if s = "government_and_non_profit" then some .government_and_non_profit
  else if s = "transportation" then some .transportation
  else if s = "travel" then some .travel
  else if s = "rent_and_utilities" then some .rent_and_utilities
  else none

/-- A raw transaction record as returned by the provider endpoints.
Empty strings model the falsy values (None or empty) tested by the source. -/
structure TxRecord where
  transaction_id : String
  /-- Signed amount, provider convention. -/
  amount : ℚ
  /-- personal_finance_category.primary; empty string is falsy. -/
  primary_category : String
  /-- personal_finance_category.detailed; empty string is falsy. -/
  detailed_category : String
  date : Date
  /-- merchant_name field; empty string is falsy. -/
  merchant_name : String
  name : String
  account_id : String
  pending : Bool
deriving DecidableEq, Repr

/-- The dictionary built by _get_tx_attributes (src/logic.py lines 75-93). -/
structure TxAttrs where
  transaction_id : String
  /-- abs(float(tx.amount)). -/
  amount : ℚ
  /-- primary.lower() with fallback general_merchandise when primary is falsy. -/
  category : String
  date : Date
  merchant_name : String
  account_id : String
  pending : Bool
  subcategory : Option String
  original_amount : ℚ
deriving DecidableEq, Repr

/-- Errors raised by the provider client on transactions_sync. -/
inductive PlaidError where
  | networkError
  | rateLimited
  | invalidCursor
  | invalidAccessToken
deriving DecidableEq, Repr

/-- One transactions_sync response page. -/
structure SyncPage where
  added : List TxRecord
  next_cursor : String
  has_more : Bool
deriving DecidableEq, Repr

/-- The external world: the current date, the provider transaction store
(universe queried by transactions_get) and the cursor-indexed sync feed. -/
structure Env where
  today : Date
  store : List TxRecord
  feed : String → Except PlaidError SyncPage

/-- ASCII lowercase of one character (the Python str.lower used on provider
category names, which are ASCII). -/
def asciiLowerChar (c : Char) : Char :=
  if 'A' ≤ c ∧ c ≤ 'Z' then Char.ofNat (c.toNat + 32) else c

/-- ASCII lowercase of a string. -/
def asciiLower (s : String) : String :=
  String.mk (s.toList.map asciiLowerChar)

/-- Date-range predicate of the provider transactions_get query issued by
_get_tx_attributes: kept are the transactions dated between start_date
(30 days before the current date) and end_date (the current date). -/
def txInWindow (env : Env) (t : TxRecord) : Bool :=
  env.today.dayNumber - 30 ≤ t.date.dayNumber &&
    t.date.dayNumber ≤ env.today.dayNumber

/-- Embedding of _get_tx_attributes (src/logic.py lines 41-93): query the
provider for the transactions of the last 30 days, search for the given id,
and map the record to the attribute dictionary.  Returns none when the
transaction is not found in that window. -/
def getTxAttributes (env : Env) (txid : String) : Option TxAttrs :=
  match (env.store.filter (txInWindow env)).find?
      (fun t => t.transaction_id == txid) with
  | none => none
  | some tx =>
    some { transaction_id := tx.transaction_id
           amount := |tx.amount|
           category := if tx.primary_category ≠ "" then
               asciiLower tx.primary_category else "general_merchandise"
           date := tx.date
           merchant_name := if tx.merchant_name ≠ "" then
               tx.merchant_name else tx.name
           account_id := tx.account_id
           pending := tx.pending
           subcategory := if tx.detailed_category ≠ "" then
               some tx.detailed_category else none
           original_amount := tx.amount }

/-- Per-user persisted and in-session state.  The first six fields are the
columns of the users table plus the per-user rows of monthly_spending and
budgets.  The last four fields mirror the plain attribute assignments of
sync_single_user (src/logic.py lines 363-366); they are not declared columns
of the users table and are written but never read by any guard. -/
structure UserState where
  plaid_cursor : String
  current_reconciling_tx_id : Option String
  transaction_queue : List String
  current_month : Option Date
  monthly_spending : Cat → Option ℚ
  budgets : Cat → Option ℚ
  currently_reconciling : Bool
  reconcile_category : Option String
  reconcile_amount : Option ℚ
  reconcile_transaction_id : Option String

/-- Spent value of a category as read back by the display code, which
substitutes 0.0 for NULL. -/
def spentVal (st : UserState) (c : Cat) : ℚ :=
  (st.monthly_spending c).getD 0

/-- Embedding of _clear_monthly_spending (src/logic.py lines 96-113): every
spending column is set to NULL (not to zero) and the change is committed. -/
def clearMonthlySpending (st : UserState) : UserState :=
  { st with monthly_spending := fun _ => none }

/-- Outbound SMS sent by the engine; the f-string rendering is elided, the
constructor carries the data interpolated into it. -/
inductive Msg where
  /-- New-transaction prompt (src/logic.py lines 370-378): merchant,
  category and amount. -/
  | prompt (merchant : String) (category : String) (amount : ℚ)
deriving DecidableEq, Repr

/-- Embedding of sync_single_user (src/logic.py lines 334-424).  The source
continues processing through recursive self-calls; the Nat argument is
recursion fuel, and exhausting it returns the state committed so far.
Returns the final state together with the outbound messages sent. -/
def syncOne : Nat → Env → UserState → UserState × List Msg
  | 0, _, st => (st, [])
  | Nat.succ fuel, env, st =>
    if (st.current_reconciling_tx_id).isSome then (st, [])
    else
      match st.transaction_queue with
      | tid :: rest =>
        let st₁ := { st with transaction_queue := rest }
        match getTxAttributes env tid with
        | none => syncOne fuel env st₁
        | some a =>
          ({ st₁ with currently_reconciling := true
                      reconcile_category := some a.category
                      reconcile_amount := some a.amount
                      reconcile_transaction_id := some tid },
           [Msg.prompt a.merchant_name a.category a.amount])
      | [] =>
        match env.feed st.plaid_cursor with
        | .ok page =>
          if page.added.isEmpty then
            if page.next_cursor ≠ "" then
              ({ st with plaid_cursor := page.next_cursor }, [])
            else (st, [])
          else
            syncOne fuel env
              { st with
                  transaction_queue :=
                    st.transaction_queue ++
                      page.added.map (fun t => t.transaction_id)
                  plaid_cursor := page.next_cursor }
        | .error _ =>
          (clearMonthlySpending { st with plaid_cursor := "" }, [])

/-- Python exceptions that escape handle_sms uncaught (surfaced by the Flask
layer as an internal server error). -/
inductive PyError where
  | typeError
  | attributeError
deriving DecidableEq, Repr

/-- Reply text returned by handle_sms; fixed literal replies are
constructors, the balance summary carries the data the source formats. -/
inductive SmsResponse where
  /-- Finishing reconciling before you can see your budget status! -/
  | statusWhileReconciling
  /-- Please respond with the literal word correct or a valid amount. -/
  | invalidReply
  /-- Transaction confirmed! -/
  | transactionConfirmed
  /-- Budget status: rows of (category, budget limit, spent) for categories
  with positive spending; the empty list is the no-spending-yet reply. -/
  | balanceSummary (rows : List (Cat × Option ℚ × ℚ))
  /-- Text balance to see your budget status. -/
  | defaultHelp
deriving DecidableEq, Repr

/-- Result of processing one inbound SMS: the state persisted when the
handler finished (or when the exception escaped), the outbound messages
sent, and the reply or uncaught exception. -/
structure HandleResult where
  state : UserState
  msgs : List Msg
  response : Except PyError SmsResponse

/-- message_body.strip(dollar): remove leading and trailing dollar signs. -/
def stripDollar (s : String) : String :=
  String.mk
    (((s.toList.dropWhile (fun c => c == '$')).reverse.dropWhile
        (fun c => c == '$')).reverse)

/-- Whitespace characters stripped by Python float() around a literal. -/
def isPyWs (c : Char) : Bool :=
  c == ' ' || c == '\t' || c == '\n' || c == '\r' || c == '\x0b' || c == '\x0c'

/-- Strip surrounding whitespace from a character list. -/
def trimWs (l : List Char) : List Char :=
  ((l.dropWhile isPyWs).reverse.dropWhile isPyWs).reverse

/-- Value of a list of decimal digit characters. -/
def digitsVal (l : List Char) : Nat :=
  l.foldl (fun a c => a * 10 + (c.toNat - 48)) 0

/-- Parse an optional sign, returning the sign as a rational unit and the
remaining characters. -/
def takeSign : List Char → ℚ × List Char
  | '-' :: rest => (-1, rest)
  | '+' :: rest => (1, rest)
  | l => (1, l)

/-- Mantissa forms accepted by Python float(): digits, digits dot digits,
digits dot, dot digits.  Returns the value as a rational. -/
def parseMantissa (l : List Char) : Option ℚ :=
  let intPart := l.takeWhile Char.isDigit
  let rest := l.dropWhile Char.isDigit
  match rest with
  | [] => if intPart.isEmpty then none else some (digitsVal intPart : ℚ)
  | '.' :: frac =>
    if frac.all Char.isDigit ∧ ¬(intPart.isEmpty ∧ frac.isEmpty) then
      some ((digitsVal intPart : ℚ) +
        (digitsVal frac : ℚ) / (10 : ℚ) ^ frac.length)
    else none
  | _ => none

/-- Embedding of Python float(str) restricted to finite decimal literals:
optional surrounding whitespace, optional sign, decimal mantissa, optional
decimal exponent.  (Non-finite literals such as inf and nan, and underscore
digit separators, are outside the rational model and are not covered; no
claim depends on them.)  Returns none when Python float() raises ValueError,
which is what the _valid_float helper of handle_sms tests. -/
def pyFloat? (s : String) : Option ℚ :=
  let cs := trimWs s.toList
  let (sign, cs) := takeSign cs
  let mant := cs.takeWhile (fun c => c ≠ 'e' ∧ c ≠ 'E')
  let expPart := cs.dropWhile (fun c => c ≠ 'e' ∧ c ≠ 'E')
  match parseMantissa mant with
  | none => none
  | some m =>
    match expPart with
    | [] => some (sign * m)
    | _ :: expRest =>
      let (esign, edigits) := takeSign expRest
      if edigits.isEmpty ∨ ¬(edigits.all Char.isDigit) then none
      else
        let e : ℤ := (if esign = -1 then -1 else 1) * (digitsVal edigits : ℤ)
        some (sign * m * (10 : ℚ) ^ e)

/-- Rows of the balance reply (src/logic.py lines 264-279): the categories
whose spending (NULL read as 0.0) is positive, with their budget limit and
spent value, in column order. -/
def balanceRows (st : UserState) : List (Cat × Option ℚ × ℚ) :=
  (allCats.filter (fun c => 0 < spentVal st c)).map
    (fun c => (c, st.budgets c, spentVal st c))

/-- Amount selection of handle_sms (src/logic.py lines 239-246): the
literal correct selects the fetched transaction amount (returned as the
inner none, resolved later), any body parsing as a float selects that
number, anything else is invalid. -/
def replyAmount (mb : String) : Option (Option ℚ) :=
  if mb = "correct" then some none
  else
    match pyFloat? mb with
    | some x => some (some x)
    | none => none

/-- Confirmation step of handle_sms (src/logic.py lines 248-261): month
rollover check (clearing commits on its own inside _clear_monthly_spending),
then the spending addition, reconciliation reset and commit, then a
sync_single_user call.  A cleared or never-set spending column is NULL, so
the addition NULL + amount raises TypeError; a category that is not a column
raises AttributeError; in both cases only the committed clear survives. -/
def confirmTx (fuel : Nat) (env : Env) (st : UserState) (a : TxAttrs)
    (amount : ℚ) : HandleResult :=
  let txMonth := a.date.monthFloor
  let rollover := st.current_month ≠ some txMonth
  let st₁ := if rollover then clearMonthlySpending st else st
  match catOfField a.category with
  | none => ⟨st₁, [], .error .attributeError⟩
  | some c =>
    match st₁.monthly_spending c with
    | none => ⟨st₁, [], .error .typeError⟩
    | some cur =>
      let st₂ :=
        { st₁ with
            current_month := some txMonth
            monthly_spending :=
              Function.update st₁.monthly_spending c (some (cur + amount))
            current_reconciling_tx_id := none }
      let next := syncOne fuel env st₂
      ⟨next.1, next.2, .ok .transactionConfirmed⟩

/-- Embedding of handle_sms (src/logic.py lines 202-319).  The fuel is
passed to the sync_single_user call performed after a confirmation.  The
state in the result is the state committed when the handler returned or
when an exception escaped: _clear_monthly_spending commits on its own
(line 113), so a month rollover survives a subsequent exception, while the
month marker, spending addition and reconciliation reset are only persisted
together by the commit at line 258. -/
def handleSms (fuel : Nat) (env : Env) (st : UserState) (body : String) :
    HandleResult :=
  let mb := stripDollar body
  match st.current_reconciling_tx_id with
  | some tid =>
    let attrs := getTxAttributes env tid
    if mb = "status" then
      ⟨st, [], .ok .statusWhileReconciling⟩
    else
      match replyAmount mb with
      | none => ⟨st, [], .ok .invalidReply⟩
      | some amountChoice =>
        match attrs with
        | none =>
          -- tx_attributes is None: subscripting it (lines 240 and 248)
          -- raises TypeError before any state mutation
          ⟨st, [], .error .typeError⟩
        | some a =>
          confirmTx fuel env st a (amountChoice.getD a.amount)
  | none =>
    if mb = "balance" then
      ⟨st, [], .ok (.balanceSummary (balanceRows st))⟩
    else
      ⟨st, [], .ok .defaultHelp⟩

/-- Cursor token denoting position n of the provider update stream.  Cursor
tokens are opaque to the engine; this concrete encoding (nonempty, so never
falsy) is used to instantiate the provider contract of the spec: a
cursor-indexed feed over an append-only stream of added records. -/
def encodeCursor (n : Nat) : String :=
  String.mk (List.replicate (n + 1) 'c')

/-- Stream position denoted by a cursor; the empty cursor (full resync)
denotes position 0. -/
def decodeCursor (s : String) : Nat :=
  s.length - 1

/-- The transactions_sync response of a provider whose update stream is
the given list, served in pages of the given size. -/
def streamPage (updates : List TxRecord) (pageSize : Nat) (c : String) :
    SyncPage :=
  let i := decodeCursor c
  { added := (updates.drop i).take pageSize
    next_cursor := encodeCursor (min (i + pageSize) updates.length)
    has_more := decide (i + pageSize < updates.length) }

/-- A provider feed that never fails, serving the given update stream. -/
def streamFeed (updates : List TxRecord) (pageSize : Nat) :
    String → Except PlaidError SyncPage :=
  fun c => .ok (streamPage updates pageSize c)

/-- Sample provider record: a food-and-drink debit of 30 (signed -30 in the
provider convention) dated 2024-06-15. -/
def sampleTxFood : TxRecord :=
  { transaction_id := "t1"
    amount := -30
    primary_category := "FOOD_AND_DRINK"
    detailed_category := ""
    date := ⟨2024, 6, 15⟩
    merchant_name := "Cafe"
    name := "CAFE LLC"
    account_id := "acc"
    pending := false }

/-- Sample provider record: a second transaction dated 2024-06-16. -/
def sampleTxSecond : TxRecord :=
  { sampleTxFood with
      transaction_id := "t2"
      amount := 12
      date := ⟨2024, 6, 16⟩ }

/-- Current date used by the sample environments. -/
def sampleToday : Date :=
  ⟨2024, 6, 20⟩

/-- Environment whose feed serves the two sample records one per page
(two pages, has_more true after the first). -/
def twoPageEnv : Env :=
  { today := sampleToday
    store := [sampleTxFood, sampleTxSecond]
    feed := streamFeed [sampleTxFood, sampleTxSecond] 1 }

/-- Environment whose feed returns one page in which the id t1 occurs
twice (retry overlap within a batch). -/
def dupPageEnv : Env :=
  { today := sampleToday
    store := [sampleTxFood, sampleTxSecond]
    feed := streamFeed [sampleTxSecond, sampleTxFood, sampleTxFood] 3 }

/-- Environment whose feed always reports no new transactions. -/
def emptyFeedEnv : Env :=
  { today := sampleToday
    store := [sampleTxFood, sampleTxSecond]
    feed := streamFeed [] 1 }

/-- Environment whose feed always fails with a transient network error. -/
def errFeedEnv : Env :=
  { today := sampleToday
    store := [sampleTxFood, sampleTxSecond]
    feed := fun _ => .error .networkError }

/-- Environment whose store only holds the food transaction, redated more
than 30 days before the current date. -/
def oldTxEnv : Env :=
  { today := sampleToday
    store := [{ sampleTxFood with date := ⟨2024, 4, 1⟩ }]
    feed := streamFeed [] 1 }

/-- Base user: IDLE, empty queue, empty cursor, month marker 2024-06, 20
already spent on food_and_drink this month. -/
def idleUser : UserState :=
  { plaid_cursor := ""
    current_reconciling_tx_id := none
    transaction_queue := []
    current_month := some ⟨2024, 6, 1⟩
    monthly_spending := fun c => if c = .food_and_drink then some 20 else none
    budgets := fun _ => none
    currently_reconciling := false
    reconcile_category := none
    reconcile_amount := none
    reconcile_transaction_id := none }

/-- User awaiting a reply for transaction t1. -/
def awaitingUser : UserState :=
  { idleUser with current_reconciling_tx_id := some "t1" }

/-- User awaiting a reply for t1 whose stored month marker (2024-05) is
older than the month of t1. -/
def staleMonthUser : UserState :=
  { awaitingUser with current_month := some ⟨2024, 5, 1⟩ }

/-- User awaiting a reply for a transaction id absent from the provider. -/
def missingAwaitingUser : UserState :=
  { idleUser with current_reconciling_tx_id := some "t_gone" }

/-- User with a nonempty cursor, used to observe cursor resets. -/
def cursorUser : UserState :=
  { idleUser with plaid_cursor := encodeCursor 7 }

/-- User with two fetchable queued transactions. -/
def queuedPairUser : UserState :=
  { idleUser with transaction_queue := ["t1", "t2"] }

/-- User whose queue head can no longer be fetched from the provider. -/
def missingQueuedUser : UserState :=
  { idleUser with transaction_queue := ["t_gone"] }

/-- The reply text of spec Scenario B: an amount with a trailing category
override segment. -/
def overrideReplyBody : String :=
  "12.50,shopping"

/-- The attribute dictionary the provider lookup yields for the sample food
transaction: magnitude 30, category lowercased, merchant name kept. -/
def sampleTxFoodAttrs : TxAttrs :=
  { transaction_id := "t1"
    amount := 30
    category := "food_and_drink"
    date := ⟨2024, 6, 15⟩
    merchant_name := "Cafe"
    account_id := "acc"
    pending := false
    subcategory := none
    original_amount := -30 }

/-- The attribute dictionary for the second sample transaction. -/
def sampleTxSecondAttrs : TxAttrs :=
  { transaction_id := "t2"
    amount := 12
    category := "food_and_drink"
    date := ⟨2024, 6, 16⟩
    merchant_name := "Cafe"
    account_id := "acc"
    pending := false
    subcategory := none
    original_amount := 12 }

/-- The literal confirmation reply. -/
def correctReplyBody : String :=
  "correct"

/-- A reply parsing as a negative float. -/
def negativeReplyBody : String :=
  "-5"

/-- User with the fetchable but outdated transaction t1 queued. -/
def oldQueuedUser : UserState :=
  { idleUser with transaction_queue := ["t1"] }

lemma syncOne_succ_awaiting (fuel : Nat) (env : Env) (st : UserState)
    (h : st.current_reconciling_tx_id.isSome) :
    syncOne (fuel + 1) env st = (st, []) := by
  rw [syncOne]
  simp [h]

lemma syncOne_awaiting (fuel : Nat) (env : Env) (st : UserState)
    (h : st.current_reconciling_tx_id.isSome) :
    syncOne fuel env st = (st, []) := by
  cases fuel with
  | zero => rfl
  | succ n => exact syncOne_succ_awaiting n env st h

lemma syncOne_succ_pop_missing (fuel : Nat) (env : Env) (st : UserState)
    (tid : String) (rest : List String)
    (hrec : st.current_reconciling_tx_id = none)
    (hq : st.transaction_queue = tid :: rest)
    (hattr : getTxAttributes env tid = none) :
    syncOne (fuel + 1) env st
      = syncOne fuel env { st with transaction_queue := rest } := by
  rw [syncOne]
  simp [hrec, hq, hattr]

lemma syncOne_succ_pop_found (fuel : Nat) (env : Env) (st : UserState)
    (tid : String) (rest : List String) (a : TxAttrs)
    (hrec : st.current_reconciling_tx_id = none)
    (hq : st.transaction_queue = tid :: rest)
    (hattr : getTxAttributes env tid = some a) :
    syncOne (fuel + 1) env st
      = ({ st with
             transaction_queue := rest
             currently_reconciling := true
             reconcile_category := some a.category
             reconcile_amount := some a.amount
             reconcile_transaction_id := some tid },
         [Msg.prompt a.merchant_name a.category a.amount]) := by
  rw [syncOne]
  simp [hrec, hq, hattr]

lemma syncOne_succ_feed_error (fuel : Nat) (env : Env) (st : UserState)
    (e : PlaidError)
    (hrec : st.current_reconciling_tx_id = none)
    (hq : st.transaction_queue = [])
    (hfeed : env.feed st.plaid_cursor = .error e) :
    syncOne (fuel + 1) env st
      = (clearMonthlySpending { st with plaid_cursor := "" }, []) := by
  rw [syncOne]
  simp [hrec, hq, hfeed]

lemma syncOne_succ_feed_empty (fuel : Nat) (env : Env) (st : UserState)
    (page : SyncPage)
    (hrec : st.current_reconciling_tx_id = none)
    (hq : st.transaction_queue = [])
    (hfeed : env.feed st.plaid_cursor = .ok page)
    (hadded : page.added = []) :
    syncOne (fuel + 1) env st
      = (if page.next_cursor ≠ "" then
           ({ st with plaid_cursor := page.next_cursor }, [])
         else (st, [])) := by
  rw [syncOne]
  simp [hrec, hq, hfeed, hadded]

lemma syncOne_succ_feed_added (fuel : Nat) (env : Env) (st : UserState)
    (page : SyncPage)
    (hrec : st.current_reconciling_tx_id = none)
    (hq : st.transaction_queue = [])
    (hfeed : env.feed st.plaid_cursor = .ok page)
    (hadded : page.added ≠ []) :
    syncOne (fuel + 1) env st
      = syncOne fuel env
          { st with
              transaction_queue :=
                st.transaction_queue ++
                  page.added.map (fun t => t.transaction_id)
              plaid_cursor := page.next_cursor } := by
  rw [syncOne]
  simp [hrec, hq, hfeed, List.isEmpty_iff, hadded]

lemma syncOne_preserves_spending (env : Env)
    (hfeed : ∀ c, ∃ p, env.feed c = .ok p) :
    ∀ (fuel : Nat) (st : UserState),
      (syncOne fuel env st).1.monthly_spending = st.monthly_spending := by
  intro fuel
  induction fuel with
  | zero => intro st; rfl
  | succ n ih =>
    intro st
    cases hrec : st.current_reconciling_tx_id with
    | some tid =>
      rw [syncOne_awaiting (n + 1) env st (by rw [hrec]; rfl)]
    | none =>
      cases hq : st.transaction_queue with
      | cons tid rest =>
        cases hattr : getTxAttributes env tid with
        | none =>
          rw [syncOne_succ_pop_missing n env st tid rest hrec hq hattr, ih]
        | some a =>
          rw [syncOne_succ_pop_found n env st tid rest a hrec hq hattr]
      | nil =>
        obtain ⟨p, hp⟩ := hfeed st.plaid_cursor
        cases hadded : p.added with
        | nil =>
          rw [syncOne_succ_feed_empty n env st p hrec hq hp hadded]
          split <;> rfl
        | cons t ts =>
          rw [syncOne_succ_feed_added n env st p hrec hq hp
            (by rw [hadded]; exact List.cons_ne_nil t ts), ih]

lemma syncOne_first_page_stop (fuel : Nat) (env : Env) (st : UserState)
    (page : SyncPage) (t : TxRecord) (ts : List TxRecord) (a : TxAttrs)
    (hrec : st.current_reconciling_tx_id = none)
    (hq : st.transaction_queue = [])
    (hfeed : env.feed st.plaid_cursor = .ok page)
    (hadded : page.added = t :: ts)
    (hattr : getTxAttributes env t.transaction_id = some a) :
    syncOne (fuel + 2) env st
      = ({ st with
             transaction_queue := ts.map (fun x => x.transaction_id)
             plaid_cursor := page.next_cursor
             currently_reconciling := true
             reconcile_category := some a.category
             reconcile_amount := some a.amount
             reconcile_transaction_id := some t.transaction_id },
         [Msg.prompt a.merchant_name a.category a.amount]) := by
  rw [syncOne_succ_feed_added (fuel + 1) env st page hrec hq hfeed
    (by rw [hadded]; exact List.cons_ne_nil t ts)]
  exact syncOne_succ_pop_found fuel env
    { st with
        transaction_queue :=
          st.transaction_queue ++ page.added.map (fun x => x.transaction_id)
        plaid_cursor := page.next_cursor }
    t.transaction_id (ts.map (fun x => x.transaction_id)) a hrec
    (by simp [hq, hadded]) hattr

lemma getTxAttributes_amount_nonneg (env : Env) (tid : String) (a : TxAttrs)
    (h : getTxAttributes env tid = some a) : 0 ≤ a.amount := by
  unfold getTxAttributes at h
  cases hf : (env.store.filter (txInWindow env)).find?
      (fun t => t.transaction_id == tid) with
  | none => rw [hf] at h; exact absurd h (by simp)
  | some tx =>
    rw [hf] at h
    simp only [Option.some.injEq] at h
    subst h
    exact abs_nonneg _

lemma getTxAttributes_none_of_old (env : Env) (tid : String)
    (hold : ∀ tx ∈ env.store, tx.transaction_id = tid →
        tx.date.dayNumber < env.today.dayNumber - 30) :
    getTxAttributes env tid = none := by
  unfold getTxAttributes
  rw [List.find?_eq_none.mpr]
  intro tx hmem
  have hmem2 := List.mem_filter.mp hmem
  simp only [txInWindow, Bool.and_eq_true, decide_eq_true_eq] at hmem2
  intro heq
  have := hold tx hmem2.1 (by simpa using heq)
  omega

lemma handleSms_idle (fuel : Nat) (env : Env) (st : UserState) (body : String)
    (hrec : st.current_reconciling_tx_id = none) :
    (handleSms fuel env st body).state = st
    ∧ (handleSms fuel env st body).msgs = [] := by
  unfold handleSms
  rw [hrec]
  by_cases hb : stripDollar body = "balance" <;> simp [hb]

lemma handleSms_awaiting_status (fuel : Nat) (env : Env) (st : UserState)
    (tid : String) (body : String)
    (hrec : st.current_reconciling_tx_id = some tid)
    (hmb : stripDollar body = "status") :
    handleSms fuel env st body = ⟨st, [], .ok .statusWhileReconciling⟩ := by
  unfold handleSms
  rw [hrec]
  simp [hmb]

lemma handleSms_awaiting_invalid (fuel : Nat) (env : Env) (st : UserState)
    (tid : String) (body : String)
    (hrec : st.current_reconciling_tx_id = some tid)
    (hs : stripDollar body ≠ "status")
    (hch : replyAmount (stripDollar body) = none) :
    handleSms fuel env st body = ⟨st, [], .ok .invalidReply⟩ := by
  unfold handleSms
  rw [hrec]
  dsimp only
  rw [if_neg hs, hch]

lemma handleSms_awaiting_missing (fuel : Nat) (env : Env) (st : UserState)
    (tid : String) (body : String) (ch : Option ℚ)
    (hrec : st.current_reconciling_tx_id = some tid)
    (hattr : getTxAttributes env tid = none)
    (hs : stripDollar body ≠ "status")
    (hch : replyAmount (stripDollar body) = some ch) :
    handleSms fuel env st body = ⟨st, [], .error .typeError⟩ := by
  unfold handleSms
  rw [hrec]
  dsimp only
  rw [if_neg hs, hch, hattr]

lemma handleSms_awaiting_found (fuel : Nat) (env : Env) (st : UserState)
    (tid : String) (body : String) (ch : Option ℚ) (a : TxAttrs)
    (hrec : st.current_reconciling_tx_id = some tid)
    (hattr : getTxAttributes env tid = some a)
    (hs : stripDollar body ≠ "status")
    (hch : replyAmount (stripDollar body) = some ch) :
    handleSms fuel env st body
      = confirmTx fuel env st a (ch.getD a.amount) := by
  unfold handleSms
  rw [hrec]
  dsimp only
  rw [if_neg hs, hch, hattr]

lemma replyAmount_none_cases (mb : String)
    (hc : mb ≠ "correct") (hf : pyFloat? mb = none) :
    replyAmount mb = none := by
  unfold replyAmount
  rw [if_neg hc, hf]

lemma replyAmount_some_some (mb : String) (x : ℚ)
    (h : replyAmount mb = some (some x)) : pyFloat? mb = some x := by
  unfold replyAmount at h
  by_cases hc : mb = "correct"
  · rw [if_pos hc] at h
    exact absurd h (by simp)
  · rw [if_neg hc] at h
    cases hf : pyFloat? mb with
    | none => rw [hf] at h; exact absurd h (by simp)
    | some y => rw [hf] at h; simp only [Option.some.injEq] at h; rw [h]

lemma confirmTx_spending_mono (fuel : Nat) (env : Env) (st : UserState)
    (a : TxAttrs) (amount : ℚ)
    (hmonth : st.current_month = some a.date.monthFloor)
    (hfeed : ∀ c, ∃ p, env.feed c = .ok p)
    (hamount : 0 ≤ amount) :
    ∀ c, spentVal st c ≤ spentVal (confirmTx fuel env st a amount).state c := by
  intro c
  unfold confirmTx
  dsimp only
  rw [if_neg (by rw [hmonth]; exact not_not_intro rfl)]
  cases hcat : catOfField a.category with
  | none => exact le_refl _
  | some c' =>
    dsimp only
    cases hcur : st.monthly_spending c' with
    | none => exact le_refl _
    | some cur =>
      dsimp only [spentVal]
      rw [syncOne_preserves_spending env hfeed]
      dsimp only
      by_cases hcc : c = c'
      · subst hcc
        rw [Function.update_same, hcur]
        simpa using hamount
      · rw [Function.update_noteq hcc]

lemma handleSms_missing_attrs (fuel : Nat) (env : Env) (st : UserState)
    (tid : String) (body : String)
    (hrec : st.current_reconciling_tx_id = some tid)
    (hattr : getTxAttributes env tid = none) :
    (handleSms fuel env st body).state = st
    ∧ (handleSms fuel env st body).response ≠ .ok .transactionConfirmed := by
  by_cases hs : stripDollar body = "status"
  · rw [handleSms_awaiting_status fuel env st tid body hrec hs]
    exact ⟨rfl, by simp⟩
  · cases hch : replyAmount (stripDollar body) with
    | none =>
      rw [handleSms_awaiting_invalid fuel env st tid body hrec hs hch]
      exact ⟨rfl, by simp⟩
    | some ch =>
      rw [handleSms_awaiting_missing fuel env st tid body ch hrec hattr hs hch]
      exact ⟨rfl, by simp⟩

/-- C9: for every user whose conversation state shows a current reconciling
transaction id (AWAITING_REPLY), sync_single_user is a complete no-op: the
cursor, queue, ledger and conversation state are returned unchanged and no
outbound message is sent. -/
theorem c9_sync_noop_while_awaiting (fuel : Nat) (env : Env) (st : UserState)
    {tid : String} (h : st.current_reconciling_tx_id = some tid) :
    syncOne fuel env st = (st, []) :=
  syncOne_awaiting fuel env st (by rw [h]; rfl)

/-- C9 witness: the no-op at a concrete awaiting user and environment. -/
theorem c9_witness :
    awaitingUser.current_reconciling_tx_id = some sampleTxFood.transaction_id
    ∧ syncOne 5 twoPageEnv awaitingUser = (awaitingUser, []) :=
  ⟨rfl, c9_sync_noop_while_awaiting 5 twoPageEnv awaitingUser rfl⟩

/-- C10: the transaction-detail lookup searches only the 30 days before the
current date, so for a transaction id all of whose provider records are
dated more than 30 days in the past the lookup returns none; hence sync
pops such a queued id with no ledger update and moves on, and no reply
while awaiting it can mutate state or be confirmed. -/
theorem c10_window_skips_old_transactions (env : Env) (tid : String)
    (hold : ∀ tx ∈ env.store, tx.transaction_id = tid →
        tx.date.dayNumber < env.today.dayNumber - 30) :
    getTxAttributes env tid = none
    ∧ (∀ (fuel : Nat) (st : UserState) (rest : List String),
        st.current_reconciling_tx_id = none →
        st.transaction_queue = tid :: rest →
        syncOne (fuel + 1) env st
          = syncOne fuel env { st with transaction_queue := rest })
    ∧ (∀ (fuel : Nat) (st : UserState) (body : String),
        st.current_reconciling_tx_id = some tid →
        (handleSms fuel env st body).state = st
        ∧ (handleSms fuel env st body).response
            ≠ .ok .transactionConfirmed) := by
  have hnone := getTxAttributes_none_of_old env tid hold
  refine ⟨hnone, ?_, ?_⟩
  · intro fuel st rest hrec hq
    exact syncOne_succ_pop_missing fuel env st tid rest hrec hq hnone
  · intro fuel st body hrec
    exact handleSms_missing_attrs fuel env st tid body hrec hnone

/-- C10 witness: a transaction dated 2024-04-01 with the current date
2024-06-20 is out of the window; the lookup misses, sync skips it, and a
confirmation reply while awaiting it leaves the state unchanged. -/
theorem c10_witness :
    (∀ tx ∈ oldTxEnv.store,
        tx.transaction_id = sampleTxFood.transaction_id →
        tx.date.dayNumber < oldTxEnv.today.dayNumber - 30)
    ∧ getTxAttributes oldTxEnv sampleTxFood.transaction_id = none
    ∧ syncOne (0 + 1) oldTxEnv oldQueuedUser
        = syncOne 0 oldTxEnv { oldQueuedUser with transaction_queue := [] }
    ∧ (handleSms 0 oldTxEnv awaitingUser correctReplyBody).state
        = awaitingUser := by
  have hold : ∀ tx ∈ oldTxEnv.store,
      tx.transaction_id = sampleTxFood.transaction_id →
      tx.date.dayNumber < oldTxEnv.today.dayNumber - 30 := by decide
  refine ⟨hold, ?_, ?_, ?_⟩
  · exact (c10_window_skips_old_transactions oldTxEnv
      sampleTxFood.transaction_id hold).1
  · exact (c10_window_skips_old_transactions oldTxEnv
      sampleTxFood.transaction_id hold).2.1 0 oldQueuedUser [] rfl rfl
  · exact ((c10_window_skips_old_transactions oldTxEnv
      sampleTxFood.transaction_id hold).2.2 0 awaitingUser
        correctReplyBody rfl).1

/-- C2 counterexample: a transient network error during the feed call of a
sync pass resets the cursor to empty and clears the monthly ledger, against
the claimed retain-cursor, ledger-unchanged behaviour for transient
errors. -/
theorem c2_counterexample :
    (syncOne 1 errFeedEnv cursorUser).1.plaid_cursor = ""
    ∧ cursorUser.plaid_cursor ≠ ""
    ∧ (syncOne 1 errFeedEnv cursorUser).1.monthly_spending .food_and_drink
        = none
    ∧ cursorUser.monthly_spending .food_and_drink = some 20 :=
  ⟨rfl, by decide, rfl, rfl⟩

/-- C2 amended: on a feed error of any kind — transient or credential — the
pass for that user ends with nothing enqueued, the cursor reset to the
empty string and every monthly spending value cleared. -/
theorem c2_feed_error_resets_cursor_and_ledger (fuel : Nat) (env : Env)
    (st : UserState) (e : PlaidError)
    (hrec : st.current_reconciling_tx_id = none)
    (hq : st.transaction_queue = [])
    (hfeed : env.feed st.plaid_cursor = .error e) :
    syncOne (fuel + 1) env st
      = (clearMonthlySpending { st with plaid_cursor := "" }, []) :=
  syncOne_succ_feed_error fuel env st e hrec hq hfeed

/-- C2 witness: the amended behaviour at a concrete user and a concrete
network-failing feed. -/
theorem c2_witness :
    syncOne (0 + 1) errFeedEnv cursorUser
      = (clearMonthlySpending { cursorUser with plaid_cursor := "" }, []) :=
  c2_feed_error_resets_cursor_and_ledger 0 errFeedEnv cursorUser
    .networkError rfl rfl rfl

/-- C6 counterexample: while awaiting a food transaction with 20 already
spent, the reply of spec Scenario B carrying a trailing category override
is rejected with the fixed invalid-reply message and changes nothing: the
general_merchandise (shopping) spending is not set to 12.50 and food is
untouched. -/
theorem c6_counterexample :
    (handleSms 1 twoPageEnv awaitingUser overrideReplyBody).state
        = awaitingUser
    ∧ (handleSms 1 twoPageEnv awaitingUser overrideReplyBody).response
        = .ok .invalidReply
    ∧ awaitingUser.monthly_spending .general_merchandise = none
    ∧ awaitingUser.monthly_spending .food_and_drink = some 20 :=
  ⟨rfl, rfl, rfl, rfl⟩

/-- C6 amended: a reply that is not the status command, not the literal
correct and does not parse as a float — in particular any amount followed
by a comma and a category label — is answered with the fixed invalid-reply
message, with state, ledger and conversation unchanged; no category
override mechanism exists. -/
theorem c6_comma_reply_rejected (fuel : Nat) (env : Env) (st : UserState)
    (body : String) {tid : String}
    (hrec : st.current_reconciling_tx_id = some tid)
    (hs : stripDollar body ≠ "status")
    (hc : stripDollar body ≠ "correct")
    (hf : pyFloat? (stripDollar body) = none) :
    handleSms fuel env st body = ⟨st, [], .ok .invalidReply⟩ :=
  handleSms_awaiting_invalid fuel env st tid body hrec hs
    (replyAmount_none_cases (stripDollar body) hc hf)

/-- C6 witness: the rejection at the concrete Scenario B reply. -/
theorem c6_witness :
    handleSms 1 twoPageEnv awaitingUser overrideReplyBody
      = ⟨awaitingUser, [], .ok .invalidReply⟩ :=
  c6_comma_reply_rejected 1 twoPageEnv awaitingUser overrideReplyBody rfl
    (by decide) (by decide) rfl

/-- C1 counterexample: from IDLE with an empty queue, one sync pass against
a two-page feed stops after the first page: the cursor stops at position 1,
the second page (with t2 added and available) is never fetched or enqueued,
and the first prompt has already been issued — the feed is not drained even
though the first page reported has_more. -/
theorem c1_counterexample :
    (streamPage [sampleTxFood, sampleTxSecond] 1 idleUser.plaid_cursor).has_more
        = true
    ∧ (syncOne 5 twoPageEnv idleUser).1.plaid_cursor = encodeCursor 1
    ∧ (streamPage [sampleTxFood, sampleTxSecond] 1 (encodeCursor 1)).added
        = [sampleTxSecond]
    ∧ (syncOne 5 twoPageEnv idleUser).1.transaction_queue = []
    ∧ (syncOne 5 twoPageEnv idleUser).1.reconcile_transaction_id
        = some sampleTxFood.transaction_id
    ∧ ((syncOne 5 twoPageEnv idleUser).2).length = 1 :=
  ⟨rfl, rfl, rfl, rfl, rfl, rfl⟩

/-- C1 amended: from IDLE with an empty queue, a single sync pass fetches
feed pages only up to the first page whose added list is nonempty and whose
head is fetchable: that page's remaining ids become the queue, the cursor
advances by exactly that one page, and the first prompt is issued
immediately — has_more is ignored and later pages are left for subsequent
passes. -/
theorem c1_sync_stops_at_first_nonempty_page (fuel : Nat) (env : Env)
    (st : UserState) (page : SyncPage) (t : TxRecord) (ts : List TxRecord)
    (a : TxAttrs)
    (hrec : st.current_reconciling_tx_id = none)
    (hq : st.transaction_queue = [])
    (hfeed : env.feed st.plaid_cursor = .ok page)
    (hadded : page.added = t :: ts)
    (hattr : getTxAttributes env t.transaction_id = some a) :
    syncOne (fuel + 2) env st
      = ({ st with
             transaction_queue := ts.map (fun x => x.transaction_id)
             plaid_cursor := page.next_cursor
             currently_reconciling := true
             reconcile_category := some a.category
             reconcile_amount := some a.amount
             reconcile_transaction_id := some t.transaction_id },
         [Msg.prompt a.merchant_name a.category a.amount]) :=
  syncOne_first_page_stop fuel env st page t ts a hrec hq hfeed hadded hattr

/-- C1 witness: the single-page stop at the concrete two-page feed. -/
theorem c1_witness :
    syncOne (0 + 2) twoPageEnv idleUser
      = ({ idleUser with
             transaction_queue := ([] : List TxRecord).map
               (fun x => x.transaction_id)
             plaid_cursor := encodeCursor 1
             currently_reconciling := true
             reconcile_category := some sampleTxFoodAttrs.category
             reconcile_amount := some sampleTxFoodAttrs.amount
             reconcile_transaction_id := some sampleTxFood.transaction_id },
         [Msg.prompt sampleTxFoodAttrs.merchant_name
            sampleTxFoodAttrs.category sampleTxFoodAttrs.amount]) :=
  c1_sync_stops_at_first_nonempty_page 0 twoPageEnv idleUser
    (streamPage [sampleTxFood, sampleTxSecond] 1 idleUser.plaid_cursor)
    sampleTxFood [] sampleTxFoodAttrs rfl rfl rfl rfl rfl

/-- C3 counterexample: a single feed page carrying the id t1 twice yields a
queue in which t1 occurs twice after the sync pass — enqueueing is not
idempotent per id. -/
theorem c3_counterexample :
    (syncOne 5 dupPageEnv idleUser).1.transaction_queue
      = [sampleTxFood.transaction_id, sampleTxFood.transaction_id]
    ∧ ((syncOne 5 dupPageEnv idleUser).1.transaction_queue).count
        sampleTxFood.transaction_id = 2 :=
  ⟨rfl, rfl⟩

/-- C3 amended: enqueueing appends every occurrence of every added id
verbatim, deduplicating neither against the page nor the queue nor resolved
ids: after a sync pass over a page with fetchable head, each id occurs in
the queue exactly as often as in the tail of the fetched added list. -/
theorem c3_enqueue_appends_duplicates (fuel : Nat) (env : Env)
    (st : UserState) (page : SyncPage) (t : TxRecord) (ts : List TxRecord)
    (a : TxAttrs)
    (hrec : st.current_reconciling_tx_id = none)
    (hq : st.transaction_queue = [])
    (hfeed : env.feed st.plaid_cursor = .ok page)
    (hadded : page.added = t :: ts)
    (hattr : getTxAttributes env t.transaction_id = some a) :
    ∀ x, ((syncOne (fuel + 2) env st).1.transaction_queue).count x
      = (ts.map (fun r => r.transaction_id)).count x := by
  intro x
  rw [syncOne_first_page_stop fuel env st page t ts a hrec hq hfeed hadded
    hattr]

/-- C3 witness: at the duplicated page the count of t1 in the queue equals
its count in the page tail, namely two. -/
theorem c3_witness :
    ((syncOne (3 + 2) dupPageEnv idleUser).1.transaction_queue).count
        sampleTxFood.transaction_id
      = (([sampleTxFood, sampleTxFood]).map
          (fun r => r.transaction_id)).count sampleTxFood.transaction_id :=
  c3_enqueue_appends_duplicates 3 dupPageEnv idleUser
    (streamPage [sampleTxSecond, sampleTxFood, sampleTxFood] 3
      idleUser.plaid_cursor)
    sampleTxSecond [sampleTxFood, sampleTxFood] sampleTxSecondAttrs
    rfl rfl rfl rfl rfl sampleTxFood.transaction_id

/-- C5 evaluation: confirming a transaction dated in a new month first
clears all spending values (committed inside _clear_monthly_spending) but
the subsequent addition reads the cleared NULL and raises TypeError: the
confirmed amount is never added, the month marker update is rolled back,
and the handler surfaces an internal error. -/
theorem c5_rollover_clears_then_raises :
    (handleSms 1 twoPageEnv staleMonthUser correctReplyBody).state
        = clearMonthlySpending staleMonthUser
    ∧ (handleSms 1 twoPageEnv staleMonthUser correctReplyBody).response
        = .error .typeError
    ∧ staleMonthUser.monthly_spending .food_and_drink = some 20
    ∧ staleMonthUser.current_month ≠ some sampleTxFoodAttrs.date.monthFloor
    ∧ (clearMonthlySpending staleMonthUser).current_month
        = staleMonthUser.current_month
    ∧ (clearMonthlySpending staleMonthUser).monthly_spending .food_and_drink
        = none :=
  ⟨rfl, rfl, rfl, by decide, rfl, rfl⟩

/-- C7 evaluation: when the queue head can no longer be fetched, sync pops
it and proceeds without error; but a confirmation reply while awaiting the
unfetchable transaction raises TypeError (subscripting the missing detail
record), surfaced as an internal error instead of completing. -/
theorem c7_missing_detail_sync_skips_reply_raises :
    syncOne 2 emptyFeedEnv missingQueuedUser
      = ({ missingQueuedUser with
             transaction_queue := []
             plaid_cursor := encodeCursor 0 }, [])
    ∧ (handleSms 1 emptyFeedEnv missingAwaitingUser correctReplyBody).state
        = missingAwaitingUser
    ∧ (handleSms 1 emptyFeedEnv missingAwaitingUser correctReplyBody).response
        = .error .typeError :=
  ⟨rfl, rfl, rfl⟩

/-- C8 evaluation: with a feed reporting no new transactions and two
fetchable queued ids, the second of two successive sync passes pops the
next queued id and issues another prompt — the queue after the second call
is empty, not equal to its state after the first call — because the pass
records the in-flight transaction in reconcile_transaction_id while the
no-op guard reads current_reconciling_tx_id, which is never set. -/
theorem c8_second_sync_pops_next_item :
    (streamPage [] 1 queuedPairUser.plaid_cursor).added = []
    ∧ (syncOne 5 emptyFeedEnv queuedPairUser).1.transaction_queue
        = [sampleTxSecond.transaction_id]
    ∧ (syncOne 5 emptyFeedEnv
          (syncOne 5 emptyFeedEnv queuedPairUser).1).1.transaction_queue = []
    ∧ ((syncOne 5 emptyFeedEnv
          (syncOne 5 emptyFeedEnv queuedPairUser).1).2).length = 1
    ∧ (syncOne 5 emptyFeedEnv queuedPairUser).1.current_reconciling_tx_id
        = none :=
  ⟨rfl, rfl, rfl, rfl, rfl⟩

/-- C4 counterexample: while awaiting a same-month food transaction with 20
already spent, the reply -5 is accepted as a confirmed amount and lowers
the food spending from 20 to 15: an inbound reply can reduce a category
spent total within a month. -/
theorem c4_counterexample :
    spentVal (handleSms 1 twoPageEnv awaitingUser negativeReplyBody).state
        .food_and_drink
      < spentVal awaitingUser .food_and_drink := by
  have h1 : spentVal
      (handleSms 1 twoPageEnv awaitingUser negativeReplyBody).state
        .food_and_drink
      = 20 + -1 * ((5 : ℕ) : ℚ) := rfl
  have h2 : spentVal awaitingUser .food_and_drink = 20 := rfl
  rw [h1, h2]
  norm_num

/-- C4 amended: within a single month (the awaited transaction, if
fetchable, falls in the stored month) and with a feed that does not error,
spent values never decrease: successful sync passes leave all spending
values unchanged, and message handling — commands included — can only leave
a spent value unchanged or add a non-negative confirmed amount; only a
feed error (which clears the ledger) or a reply parsing as a negative
number can reduce a spent value. -/
theorem c4_spent_monotone_without_rollover (env : Env)
    (hfeed : ∀ cur, ∃ p, env.feed cur = .ok p) :
    (∀ (fuel : Nat) (st : UserState) (c : Cat),
        spentVal (syncOne fuel env st).1 c = spentVal st c)
    ∧ (∀ (fuel : Nat) (st : UserState) (body : String) (c : Cat),
        (∀ x, pyFloat? (stripDollar body) = some x → 0 ≤ x) →
        (∀ tid a, st.current_reconciling_tx_id = some tid →
            getTxAttributes env tid = some a →
            st.current_month = some a.date.monthFloor) →
        spentVal st c ≤ spentVal (handleSms fuel env st body).state c) := by
  constructor
  · intro fuel st c
    unfold spentVal
    rw [syncOne_preserves_spending env hfeed]
  · intro fuel st body c hx hmonth
    cases hrec : st.current_reconciling_tx_id with
    | none =>
      rw [(handleSms_idle fuel env st body hrec).1]
    | some tid =>
      by_cases hs : stripDollar body = "status"
      · rw [handleSms_awaiting_status fuel env st tid body hrec hs]
      · cases hch : replyAmount (stripDollar body) with
        | none =>
          rw [handleSms_awaiting_invalid fuel env st tid body hrec hs hch]
        | some ch =>
          cases hattr : getTxAttributes env tid with
          | none =>
            rw [(handleSms_missing_attrs fuel env st tid body hrec hattr).1]
          | some a =>
            rw [handleSms_awaiting_found fuel env st tid body ch a hrec
              hattr hs hch]
            have hamount : 0 ≤ ch.getD a.amount := by
              cases ch with
              | none => exact getTxAttributes_amount_nonneg env tid a hattr
              | some x =>
                exact hx x (replyAmount_some_some (stripDollar body) x hch)
            exact confirmTx_spending_mono fuel env st a (ch.getD a.amount)
              (hmonth tid a hrec hattr) hfeed hamount c

/-- C4 witness: the monotonicity at a concrete same-month confirmation. -/
theorem c4_witness :
    spentVal awaitingUser .food_and_drink
      ≤ spentVal
          (handleSms 1 twoPageEnv awaitingUser correctReplyBody).state
          .food_and_drink := by
  have hfeed : ∀ cur, ∃ p, twoPageEnv.feed cur = .ok p :=
    fun cur => ⟨streamPage [sampleTxFood, sampleTxSecond] 1 cur, rfl⟩
  have hx : ∀ x, pyFloat? (stripDollar correctReplyBody) = some x →
      0 ≤ x :=
    fun x h => nomatch (show (none : Option ℚ) = some x from h)
  have hmonth : ∀ tid a,
      awaitingUser.current_reconciling_tx_id = some tid →
      getTxAttributes twoPageEnv tid = some a →
      awaitingUser.current_month = some a.date.monthFloor := by
    intro tid a h1 h2
    have h1A : some sampleTxFood.transaction_id = some tid := h1
    cases h1A
    have h2A : some sampleTxFoodAttrs = some a := h2
    cases h2A
    rfl
  exact (c4_spent_monotone_without_rollover twoPageEnv hfeed).2 1
    awaitingUser correctReplyBody .food_and_drink hx hmonth
